import Mathlib

/-!
Shallow embedding of the stockpile-api resource-access engine and auth
lifecycle.

The JavaScript sources embedded here are `src/services/endpoint.js`
(endpoint factory, message selection, error classification) and the auth
controller (`authenticate`, `refresh`, `register`).  The tenant-scoped row
gateway (`services/db.js`) and `services/paginate.js` are not part of the
source tree, so those two modules are modelled from the specification text;
every definition modelled that way says so in its doc comment.

JavaScript dynamic values are embedded as `JsVal` with the usual truthiness
rules; promise-chain control flow becomes ordinary sequential matching with
an `Except` result for each fallible store round-trip.
-/

namespace Stockpile

/-- A JavaScript value as it appears in request bodies and parameters. -/
inductive JsVal where
  | undefined
  | null
  | num (n : Int)
  | str (s : String)
  | boolean (b : Bool)
deriving DecidableEq, Repr

/-- JavaScript truthiness of a `JsVal`. -/
def JsVal.truthy : JsVal → Bool
  | .undefined => false
  | .null => false
  | .num n => n != 0
  | .str s => s != ""
  | .boolean b => b

/-- Restify error classes used by the endpoint and auth layers. -/
inductive RestErr where
  | badRequest (msg : String)
  | unauthorized (msg : String)
  | forbidden (msg : String)
  | notFound (msg : String)
  | conflict (msg : String)
  | internalServer (msg : String)
deriving DecidableEq, Repr

/-- HTTP status category of a restify error. -/
def RestErr.statusCode : RestErr → Nat
  | .badRequest _ => 400
  | .unauthorized _ => 401
  | .forbidden _ => 403
  | .notFound _ => 404
  | .conflict _ => 409
  | .internalServer _ => 500

/-- Message text of a restify error. -/
def RestErr.message : RestErr → String
  | .badRequest m => m
  | .unauthorized m => m
  | .forbidden m => m
  | .notFound m => m
  | .conflict m => m
  | .internalServer m => m

/-- The kinds of endpoint messages (`chooseMessage`'s `type` argument). -/
inductive MsgType where
  | create
  | delete
  | conflict
  | missing
  | badRequest
  | default
deriving DecidableEq, Repr

/-- The optional custom-messages object handed to the endpoint factory
(`messages` in `src/services/endpoint.js`).  An absent property is `none`. -/
structure Messages where
  create : Option String := none
  delete : Option String := none
  conflict : Option String := none
  missing : Option String := none
  badRequest : Option String := none
  default : Option String := none
deriving DecidableEq, Repr

/-- Property lookup `messages[type]`. -/
def Messages.lookup (m : Messages) : MsgType → Option String
  | .create => m.create
  | .delete => m.delete
  | .conflict => m.conflict
  | .missing => m.missing
  | .badRequest => m.badRequest
  | .default => m.default

/-- The `defaultMessages` object in `chooseMessage`. -/
def defaultMessage : MsgType → String
  | .create => "Created"
  | .delete => "Deleted"
  | .conflict => "Already exists"
  | .missing => "Does not exist"
  | .badRequest => "Wrong fields"
  | .default => "Something went wrong"

/-- JavaScript `a || b` for an optional string `a` (an absent property and
the empty string are both falsy). -/
def jsOrStr (a : Option String) (b : String) : String :=
  match a with
  | some s => if s = "" then b else s
  | none => b

/-- Function `chooseMessage(type, messages)` from `src/services/endpoint.js`:
`messages[type] || defaultMessages[type] || defaultMessages.default`.
Every `MsgType` has a nonempty default, so the final fallback is reached
only through the first two lookups. -/
def chooseMessage (type : MsgType) (messages : Messages := {}) : String :=
  jsOrStr (messages.lookup type) (jsOrStr (some (defaultMessage type)) (defaultMessage .default))

/-- An error object reported by the store, exposing the classifiable
`code` discriminator and the raw `sqlMessage` detail. -/
structure DbErr where
  code : String
  sqlMessage : String
deriving DecidableEq, Repr

/-- Function `chooseError(err, messages)` from `src/services/endpoint.js`:
the `switch` on `err.code`. -/
def chooseError (err : DbErr) (messages : Messages) : RestErr :=
  if err.code = "ER_BAD_FIELD_ERROR" then
    .badRequest (chooseMessage .badRequest messages)
  else if err.code = "ER_DUP_ENTRY" then
    .conflict (chooseMessage .conflict messages)
  else if err.code = "ER_NOT_FOUND" then
    .notFound (chooseMessage .missing messages)
  else if err.code = "ER_SIGNAL_EXCEPTION" then
    .badRequest err.sqlMessage
  else
    .internalServer (chooseMessage .default messages)

/-- A tenant-scoped resource row.  The engine is generic over row shape; for
the embedding a row carries the `organizationID` column, the value of the
single addressed key column (`name`), and one opaque data column. -/
structure Row where
  organizationID : Int
  name : Int
  value : Int
deriving DecidableEq, Repr

/-- An authenticated user as attached to the request (`req.user`). -/
structure User where
  userID : Int
  email : String
  password : String
  organizationID : Int
  roleID : Int
deriving DecidableEq, Repr

namespace Db

/-- Modelled from the spec: `services/db.js` is not in the source tree (only
its callers and test fixtures are).  Per the spec's gateway invariant, every
operation that receives a non-false `organizationID` argument adds an equality
constraint on that column before applying caller modifiers.  The JS `false`
argument is embedded as `none`, a supplied organization value as `some oid`;
a caller modifier is a list of extra conjunctive where-clauses, matching the
query-modifier contract (a modifier only chains clauses onto the builder it
receives, it can remove nothing the gateway already applied). -/
def whereClauses (organizationID : Option Int) (modify : List (Row → Bool)) :
    List (Row → Bool) :=
  (match organizationID with
   | some oid => [fun r => r.organizationID == oid]
   | none => []) ++ modify

/-- A row satisfies every accumulated where-clause. -/
def matchesAll (clauses : List (Row → Bool)) (r : Row) : Bool :=
  clauses.all (fun p => p r)

/-- Modelled from the spec: `db.getAll(table, organizationID, modify, ...)`
builds the base query, conditionally constrains by `organizationID`, applies
the modifier, and executes, returning the matching rows. -/
def getAll (table : List Row) (organizationID : Option Int)
    (modify : List (Row → Bool)) : List Row :=
  table.filter (matchesAll (whereClauses organizationID modify))

/-- Modelled from the spec: `db.get(table, columnName, value, organizationID,
modify)` returns the single matching row (`none` embeds the NotFound
failure). -/
def get (table : List Row) (keyValue : Int) (organizationID : Option Int)
    (modify : List (Row → Bool)) : Option Row :=
  (table.filter (fun r => r.name == keyValue &&
    matchesAll (whereClauses organizationID modify) r)).head?

/-- Modelled from the spec: `db.update` mutates the rows matched by the key
column, the organization constraint and the modifier, applying the store's
payload merge `change`; it returns the new table together with the list of
rows it selected for update. -/
def update (table : List Row) (keyValue : Int) (change : Row → Row)
    (organizationID : Option Int) (modify : List (Row → Bool)) :
    List Row × List Row :=
  let hit := fun r => r.name == keyValue &&
    matchesAll (whereClauses organizationID modify) r
  (table.map (fun r => if hit r then change r else r), table.filter hit)

/-- Modelled from the spec: `db.delete` removes the rows matched by the key
column, the organization constraint and the modifier, returning the count of
affected rows, the new table, and the removed rows. -/
def delete (table : List Row) (keyValue : Int) (organizationID : Option Int)
    (modify : List (Row → Bool)) : Nat × List Row × List Row :=
  let hit := fun r => r.name == keyValue &&
    matchesAll (whereClauses organizationID modify) r
  ((table.filter hit).length, table.filter (fun r => !hit r), table.filter hit)

end Db

namespace Endpoint

/-- The `organizationID` argument an endpoint handler passes to the gateway:
the JS expression `hasOrganizationID && req.user.organizationID`, for an
authenticated user (`false` is embedded as `none`). -/
def orgArg (hasOrganizationID : Bool) (user : User) : Option Int :=
  if hasOrganizationID then some user.organizationID else none

/-- Request parameters relevant to `getAll` handlers, as produced by the
query parser (each parameter is absent or a string). -/
structure Params where
  limit : Option String := none
  offset : Option String := none
deriving DecidableEq, Repr

/-- JS truthiness of an optional string parameter. -/
def paramTruthy (p : Option String) : Bool :=
  match p with
  | some s => s != ""
  | none => false

/-- JS numeric parse of an optional string parameter, defaulting to 0. -/
def paramNat (p : Option String) : Nat :=
  ((p.getD "").toNat?).getD 0

/-- Modelled from the spec: `services/paginate.js` is not in the source tree
(only its test is).  Per the spec, when either pagination parameter is
present the gateway's query is constrained by the provided `limit` and/or
`offset`; when neither is present no window is applied. -/
def paginateWindow (params : Params) (rows : List Row) : List Row :=
  let afterOffset :=
    if paramTruthy params.offset then rows.drop (paramNat params.offset) else rows
  if paramTruthy params.limit then afterOffset.take (paramNat params.limit)
  else afterOffset

/-- Response of a `getAll` handler: the `{results}` envelope (each result
annotated with its zero-based `sortIndex`) and whether pagination links were
added (`paginate.addLinks` invoked). -/
structure GetAllResponse where
  results : List (Row × Nat)
  linksAdded : Bool
deriving DecidableEq, Repr

/-- The `getAll` handler from `src/services/endpoint.js`: queries the gateway
with `hasOrganizationID && req.user.organizationID`, annotates each result
with `sortIndex`, and adds pagination links iff
`req.params.limit || req.params.offset` is truthy. -/
def getAllHandler (table : List Row) (hasOrganizationID : Bool) (user : User)
    (modify : List (Row → Bool)) (params : Params) : GetAllResponse :=
  let rows := paginateWindow params (Db.getAll table (orgArg hasOrganizationID user) modify)
  { results := rows.enum.map (fun p => (p.2, p.1)),
    linksAdded := paramTruthy params.limit || paramTruthy params.offset }

/-- Response of a delete handler: `{message, id}` on an affected row, or the
empty `res.send(204)`. -/
inductive DeleteResponse where
  | body (message : String) (id : Int)
  | noContent
deriving DecidableEq, Repr

/-- The `delete` handler from `src/services/endpoint.js`: calls `db.delete`
and answers `{message: chooseMessage('delete', messages), id}` when
`rowsAffected > 0`, else `res.send(204)`.  The resulting table is threaded
through so idempotence is expressible. -/
def deleteHandler (table : List Row) (keyValue : Int)
    (hasOrganizationID : Bool) (user : User) (modify : List (Row → Bool))
    (messages : Messages) : DeleteResponse × List Row :=
  let out := Db.delete table keyValue (orgArg hasOrganizationID user) modify
  (if out.1 > 0 then .body (chooseMessage .delete messages) keyValue
   else .noContent,
   out.2.1)

/-- A create-request body, with the `organizationID` property dynamic and the
remaining fields opaque. -/
structure CreateBody where
  organizationID : JsVal
  rest : Int
deriving DecidableEq, Repr

/-- The organization back-fill at the top of the `create` handler in
`src/services/endpoint.js`:
`if (hasOrganizationID && !req.body.organizationID && req.user)
   req.body.organizationID = req.user.organizationID`. -/
def createBackfill (hasOrganizationID : Bool) (user : Option User)
    (body : CreateBody) : CreateBody :=
  match user with
  | some u =>
    if hasOrganizationID && !body.organizationID.truthy then
      { body with organizationID := .num u.organizationID }
    else body
  | none => body

end Endpoint

namespace Auth

/-- A signed access token: the claims payload of `makeToken` together with
the configured expiry. -/
structure Token where
  userID : Int
  organizationID : Int
  roleID : Int
  expiresIn : String
deriving DecidableEq, Repr

/-- Function `makeToken(userID, organizationID, roleID)` from the auth controller:
signs `{userID, organizationID, roleID}` with a fifteen-minute expiry. -/
def makeToken (userID organizationID roleID : Int) : Token :=
  { userID, organizationID, roleID, expiresIn := "15m" }

/-- The outcome of each asynchronous step `authenticate` performs, fixed up
front so the promise chain can be run as a pure function: the user fetch by
email, the bcrypt comparison, and the refresh-token insert.  A rejected
promise at any step is an `Except.error`. -/
structure AuthOracle where
  getUser : Except DbErr User
  compare : Except DbErr Bool
  saveToken : Except DbErr Unit

/-- Result of `auth.authenticate`: the success body or the error handed to
`next`. -/
inductive AuthResult where
  | ok (id : Int) (token : Token) (refreshToken : String) (message : String)
  | err (e : RestErr)
deriving DecidableEq, Repr

/-- Function `auth.authenticate` from the auth controller.  After the presence check
on `req.body.email` and `req.body.password`, the whole promise chain ends in
one `catch` that maps every rejection to the same generic Unauthorized
error; a false bcrypt comparison reaches the identical error through the
`else` branch.  `randomHex` stands for `crypto.randomBytes(40).toString`
output; the issued refresh token is `user.userID + randomHex` (JS number
to string coercion under concatenation). -/
def authenticate (email password : JsVal) (o : AuthOracle)
    (randomHex : String) : AuthResult :=
  if email.truthy && password.truthy then
    match o.getUser with
    | .error _ => .err (.unauthorized "Email and password combination is incorrect")
    | .ok user =>
      match o.compare with
      | .error _ => .err (.unauthorized "Email and password combination is incorrect")
      | .ok valid =>
        if valid then
          match o.saveToken with
          | .error _ => .err (.unauthorized "Email and password combination is incorrect")
          | .ok _ =>
            .ok user.userID (makeToken user.userID user.organizationID user.roleID)
              (toString user.userID ++ randomHex) "Authentication successful"
        else
          .err (.unauthorized "Email and password combination is incorrect")
  else
    .err (.badRequest "Missing email or password")

/-- A stored row of the `refreshToken` table.  The table is kept in insertion
order: `db.create` appends one row per successful authentication. -/
structure RefreshTokenRow where
  userID : Int
  refreshToken : String
deriving DecidableEq, Repr

/-- The knex comparison `.where('userID', req.body.userID)` between a stored
integer column and the dynamic request value (only a JS number matches). -/
def jsEqInt (v : JsVal) (n : Int) : Bool :=
  match v with
  | .num m => m == n
  | _ => false

/-- The lookup in `auth.refresh`:
`db('refreshToken').where('userID', uid).first().pluck('refreshToken')`,
destructured as `[storedToken]` — the plucked column of the first matching
row in table order, or JS `undefined` (`none`) when no row matches. -/
def storedTokenFor (table : List RefreshTokenRow) (uid : JsVal) : Option String :=
  ((table.filter (fun r => jsEqInt uid r.userID)).head?).map
    (fun r => r.refreshToken)

/-- JS strict equality `req.body.refreshToken === storedToken` where the
stored side is a string or `undefined`. -/
def jsStrictEqStr (v : JsVal) (o : Option String) : Bool :=
  match v, o with
  | .str s, some t => s == t
  | .undefined, none => true
  | _, _ => false

/-- Result of `auth.refresh`: the success body, the error handed to `next`,
or a crash (`user.userID` on an `undefined` user — the chain has no catch). -/
inductive RefreshResult where
  | ok (token : Token) (message : String)
  | err (e : RestErr)
  | crash
deriving DecidableEq, Repr

/-- Function `auth.refresh` from the auth controller: guards on the presence of
`req.body.refreshToken` and `req.body.userID`, compares the supplied token
strictly against the first stored value for that user, and on a match
re-issues an access token from the fetched user row.  It performs no store
write: the stored refresh token is neither rotated nor modified. -/
def refresh (userID refreshToken : JsVal) (tokenTable : List RefreshTokenRow)
    (users : List User) : RefreshResult :=
  if refreshToken.truthy && userID.truthy then
    if jsStrictEqStr refreshToken (storedTokenFor tokenTable userID) then
      match (users.filter (fun u => jsEqInt userID u.userID)).head? with
      | some user =>
        .ok (makeToken user.userID user.organizationID user.roleID)
          "Token refreshed successfully"
      | none => .crash
    else
      .err (.unauthorized "Refresh token is invalid")
  else
    .err (.badRequest "Request must contain refresh token and user ID")

/-- A request body as a JS object: property names with dynamic values, in
insertion order. -/
def Body := List (String × JsVal)
deriving instance DecidableEq, Repr for Body

/-- Property read `body[key]` (JS `undefined` when absent). -/
def getProp (body : Body) (key : String) : JsVal :=
  match body.find? (fun p => p.1 == key) with
  | some p => p.2
  | none => .undefined

/-- Property write `body[key] = v` for a present key. -/
def setProp (body : Body) (key : String) (v : JsVal) : Body :=
  body.map (fun p => if p.1 == key then (p.1, v) else p)

/-- The `required` list in `auth.register`. -/
def requiredKeys : List String :=
  ["firstName", "lastName", "email", "password", "organizationID"]

/-- The check `required.every(key => bodyKeys.includes(key))` from `auth.register`. -/
def hasAllRequired (body : Body) : Bool :=
  requiredKeys.all (fun key => body.any (fun p => p.1 == key))

/-- Result of `auth.register`: the 201 success body, the `BadRequestError`
for missing keys, or the raw store error forwarded by `.catch(next)`. -/
inductive RegisterResult where
  | created (id : Int) (message : String)
  | err (e : RestErr)
  | storeError (e : DbErr)
deriving DecidableEq, Repr

/-- Outcome of `auth.register` together with the row handed to `db.create`
(`none` when no persistence was attempted). -/
structure RegisterOutcome where
  result : RegisterResult
  persisted : Option Body
deriving DecidableEq, Repr

/-- Function `auth.register` from the auth controller: checks that every required key
is present in the body, overwrites `req.body.password` with its bcrypt hash
(`hash` is the bcrypt oracle), persists the resulting body, and answers
`res.send(201, {id, message})`; missing keys yield `BadRequestError` (empty
default message) with nothing persisted. -/
def register (body : Body) (hash : JsVal → String)
    (create : Except DbErr Int) : RegisterOutcome :=
  if hasAllRequired body then
    let hashedBody := setProp body "password" (.str (hash (getProp body "password")))
    match create with
    | .ok newUserID =>
      { result := .created newUserID "User successfully registered",
        persisted := some hashedBody }
    | .error e => { result := .storeError e, persisted := none }
  else
    { result := .err (.badRequest ""), persisted := none }

end Auth

/-! ## Theorems -/

/-- Any row passing all where-clauses of a tenant-scoped query carries the
scoped `organizationID`. -/
lemma matchesAll_org {oid : Int} {modify : List (Row → Bool)} {r : Row}
    (h : Db.matchesAll (Db.whereClauses (some oid) modify) r = true) :
    r.organizationID = oid := by
  simp only [Db.matchesAll, Db.whereClauses, List.all_cons, List.singleton_append,
    Bool.and_eq_true, beq_iff_eq] at h
  exact h.1

/-- C4: error classification maps an unknown/invalid-column signal to
BadRequest, a uniqueness violation to Conflict (default message
"Already exists", custom conflict text keeps the Conflict status), a missing
referenced row to NotFound, a store validation signal to BadRequest carrying
the store-supplied `sqlMessage`, and anything else to InternalServerError;
for every error and every custom-messages configuration the status category
equals the status under the empty configuration. -/
theorem c4_error_classification (err : DbErr) (messages : Messages) :
    (err.code = "ER_BAD_FIELD_ERROR" →
      chooseError err messages = .badRequest (chooseMessage .badRequest messages)) ∧
    (err.code = "ER_DUP_ENTRY" →
      chooseError err messages = .conflict (chooseMessage .conflict messages) ∧
      chooseError err {} = .conflict "Already exists" ∧
      (∀ c, c ≠ "" → chooseError err { conflict := some c } = .conflict c)) ∧
    (err.code = "ER_NOT_FOUND" →
      chooseError err messages = .notFound (chooseMessage .missing messages)) ∧
    (err.code = "ER_SIGNAL_EXCEPTION" →
      chooseError err messages = .badRequest err.sqlMessage) ∧
    (err.code ≠ "ER_BAD_FIELD_ERROR" → err.code ≠ "ER_DUP_ENTRY" →
      err.code ≠ "ER_NOT_FOUND" → err.code ≠ "ER_SIGNAL_EXCEPTION" →
      chooseError err messages = .internalServer (chooseMessage .default messages)) ∧
    (chooseError err messages).statusCode = (chooseError err {}).statusCode := by
  refine ⟨?_, ?_, ?_, ?_, ?_, ?_⟩
  · intro h; simp [chooseError, h]
  · intro h
    refine ⟨by simp [chooseError, h], by simp [chooseError, h]; rfl, ?_⟩
    intro c hc
    simp [chooseError, h, chooseMessage, Messages.lookup, jsOrStr, hc]
  · intro h; simp [chooseError, h]
  · intro h; simp [chooseError, h]
  · intro h1 h2 h3 h4; simp [chooseError, h1, h2, h3, h4]
  · unfold chooseError
    split_ifs <;> rfl

/-- Witness for C4: a uniqueness violation with a configured custom conflict
message keeps the Conflict status and uses the custom text. -/
theorem c4_error_classification_witness :
    chooseError ⟨"ER_DUP_ENTRY", ""⟩ { conflict := some "Kit already exists" } =
      .conflict "Kit already exists" :=
  ((c4_error_classification ⟨"ER_DUP_ENTRY", ""⟩
    { conflict := some "Kit already exists" }).2.1 rfl).2.2
    "Kit already exists" (by decide)

/-- C10: in the create handler with tenant scoping enabled and an
authenticated user, the `organizationID` back-fill triggers on any falsy
body value (and `undefined`, `null`, `0`, `""` are all falsy), overwriting
it with the requester's `organizationID`; with no authenticated user, or a
truthy body value, the body is unchanged. -/
theorem c10_create_backfill (u : User) (b : Endpoint.CreateBody) (hasOrg : Bool) :
    (b.organizationID.truthy = false →
      Endpoint.createBackfill true (some u) b =
        { b with organizationID := .num u.organizationID }) ∧
    (JsVal.undefined.truthy = false ∧ JsVal.null.truthy = false ∧
      (JsVal.num 0).truthy = false ∧ (JsVal.str "").truthy = false) ∧
    (b.organizationID.truthy = true →
      Endpoint.createBackfill hasOrg (some u) b = b) ∧
    Endpoint.createBackfill hasOrg none b = b := by
  refine ⟨?_, by decide, ?_, ?_⟩
  · intro h; simp [Endpoint.createBackfill, h]
  · intro h; simp [Endpoint.createBackfill, h]
  · simp [Endpoint.createBackfill]

/-- Witness for C10: a `null` body `organizationID` is overwritten with the
requester's organization. -/
theorem c10_create_backfill_witness :
    (JsVal.null.truthy = false) ∧
    Endpoint.createBackfill true (some ⟨1, "a@b.com", "h", 7, 2⟩)
        ⟨.null, 0⟩ = ⟨.num 7, 0⟩ :=
  ⟨by decide, (c10_create_backfill ⟨1, "a@b.com", "h", 7, 2⟩ ⟨.null, 0⟩ true).1 rfl⟩

/-- C3: an authenticate call whose user fetch fails (unknown email) and one
whose bcrypt comparison returns false (wrong password) both produce the
identical generic Unauthorized error, so the two failure causes are
observationally indistinguishable. -/
theorem c3_auth_failure_indistinguishable (email password : JsVal)
    (e : DbErr) (u : User) (cmp : Except DbErr Bool)
    (save save2 : Except DbErr Unit) (rnd rnd2 : String)
    (he : email.truthy = true) (hp : password.truthy = true) :
    Auth.authenticate email password ⟨.error e, cmp, save⟩ rnd =
      .err (.unauthorized "Email and password combination is incorrect") ∧
    Auth.authenticate email password ⟨.ok u, .ok false, save2⟩ rnd2 =
      .err (.unauthorized "Email and password combination is incorrect") ∧
    Auth.authenticate email password ⟨.error e, cmp, save⟩ rnd =
      Auth.authenticate email password ⟨.ok u, .ok false, save2⟩ rnd2 := by
  refine ⟨?_, ?_, ?_⟩ <;> simp [Auth.authenticate, he, hp]

/-- Witness for C3: a concrete unknown-email failure and a concrete
wrong-password failure produce equal responses. -/
theorem c3_auth_failure_indistinguishable_witness :
    ((JsVal.str "a@b.com").truthy = true ∧ (JsVal.str "secret").truthy = true) ∧
    Auth.authenticate (.str "a@b.com") (.str "secret")
        ⟨.error ⟨"ER_NOT_FOUND", ""⟩, .ok true, .ok ()⟩ "r1" =
      Auth.authenticate (.str "a@b.com") (.str "secret")
        ⟨.ok ⟨1, "a@b.com", "h", 7, 2⟩, .ok false, .ok ()⟩ "r2" :=
  ⟨by decide,
    (c3_auth_failure_indistinguishable (.str "a@b.com") (.str "secret")
      ⟨"ER_NOT_FOUND", ""⟩ ⟨1, "a@b.com", "h", 7, 2⟩ (.ok true) (.ok ()) (.ok ())
      "r1" "r2" (by decide) (by decide)).2.2⟩

/-- C8: once the presence check on email and password has passed, every
error outcome of authenticate — store failure fetching the user, comparison
failure or rejection, or store failure persisting the refresh token — is the
same generic Unauthorized error; authenticate never surfaces
InternalServerError and never forwards the raw store error. -/
theorem c8_auth_errors_all_unauthorized (email password : JsVal)
    (o : Auth.AuthOracle) (rnd : String) (e : RestErr)
    (he : email.truthy = true) (hp : password.truthy = true)
    (h : Auth.authenticate email password o rnd = .err e) :
    e = .unauthorized "Email and password combination is incorrect" := by
  rcases o with ⟨gu, cmp, save⟩
  cases gu with
  | error d => simp [Auth.authenticate, he, hp] at h; exact h.symm
  | ok user =>
    cases cmp with
    | error d => simp [Auth.authenticate, he, hp] at h; exact h.symm
    | ok valid =>
      cases valid with
      | false => simp [Auth.authenticate, he, hp] at h; exact h.symm
      | true =>
        cases save with
        | error d => simp [Auth.authenticate, he, hp] at h; exact h.symm
        | ok _ => simp [Auth.authenticate, he, hp] at h

/-- Witness for C8: a connection failure while fetching the user surfaces as
the generic Unauthorized error, not as an internal error. -/
theorem c8_auth_errors_all_unauthorized_witness :
    (Auth.authenticate (.str "a@b.com") (.str "pw")
        ⟨.error ⟨"ECONNREFUSED", "connect failed"⟩, .ok true, .ok ()⟩ "r" =
      .err (.unauthorized "Email and password combination is incorrect")) ∧
    (RestErr.unauthorized "Email and password combination is incorrect" =
      .unauthorized "Email and password combination is incorrect") :=
  ⟨by decide,
    c8_auth_errors_all_unauthorized (.str "a@b.com") (.str "pw")
      ⟨.error ⟨"ECONNREFUSED", "connect failed"⟩, .ok true, .ok ()⟩ "r"
      (.unauthorized "Email and password combination is incorrect")
      (by decide) (by decide) (by decide)⟩

/-- C9: a refresh request (with a truthy token and userID, so the presence
guard passes) naming a userID with no stored refresh-token row does not
crash and does not raise an unclassified error: the strict comparison fails
against the absent (`undefined`) stored value and the client receives the
same Unauthorized response as for a mismatching token. -/
theorem c9_refresh_no_stored_row (uid : Int) (tok : String)
    (tokenTable : List Auth.RefreshTokenRow) (users : List User)
    (huid : uid ≠ 0) (htok : tok ≠ "")
    (hnone : ∀ r ∈ tokenTable, r.userID ≠ uid) :
    Auth.refresh (.num uid) (.str tok) tokenTable users =
      .err (.unauthorized "Refresh token is invalid") := by
  have hfilter : tokenTable.filter (fun r => Auth.jsEqInt (.num uid) r.userID) = [] := by
    rw [List.filter_eq_nil_iff]
    intro r hr
    simp only [Auth.jsEqInt, beq_iff_eq]
    exact fun hEq => hnone r hr hEq.symm
  simp [Auth.refresh, JsVal.truthy, htok, huid, Auth.storedTokenFor, hfilter,
    Auth.jsStrictEqStr]

/-- Witness for C9: user 4 has no stored refresh-token row; refresh answers
the mismatch Unauthorized error. -/
theorem c9_refresh_no_stored_row_witness :
    ((4 : Int) ≠ 0 ∧ "T" ≠ "" ∧
      ∀ r ∈ [(⟨7, "Q"⟩ : Auth.RefreshTokenRow)], r.userID ≠ 4) ∧
    Auth.refresh (.num 4) (.str "T") [⟨7, "Q"⟩] [] =
      .err (.unauthorized "Refresh token is invalid") :=
  ⟨by decide,
    c9_refresh_no_stored_row 4 "T" [⟨7, "Q"⟩] [] (by decide) (by decide) (by decide)⟩

/-- Counterexample to C2 as stated: user 1 has two stored refresh tokens,
"A" stored first and "B" stored most recently (appended last).  Supplying
the most recently stored value "B" is rejected with Unauthorized, and the
superseded value "A" is accepted — the lookup takes the first matching row
in table order, not the most recent one. -/
theorem c2_refresh_counterexample :
    ((([⟨1, "A"⟩, ⟨1, "B"⟩] : List Auth.RefreshTokenRow).filter
        (fun r => Auth.jsEqInt (.num 1) r.userID)).getLast?.map
        (fun r => r.refreshToken) = some "B") ∧
    Auth.refresh (.num 1) (.str "B") [⟨1, "A"⟩, ⟨1, "B"⟩]
        [⟨1, "a@b.com", "h", 7, 2⟩] =
      .err (.unauthorized "Refresh token is invalid") ∧
    Auth.refresh (.num 1) (.str "A") [⟨1, "A"⟩, ⟨1, "B"⟩]
        [⟨1, "a@b.com", "h", 7, 2⟩] =
      .ok (Auth.makeToken 1 7 2) "Token refreshed successfully" := by
  decide

/-- C2 as amended: for every truthy userID and supplied token, refresh
succeeds (issuing a new access token from the user row, with no write to
the stored token) if and only if the supplied token exactly equals the
refresh-token value of the first stored row for that userID in table order;
any other supplied value — including tokens issued and stored later — is
rejected with Unauthorized. -/
theorem c2_refresh_first_stored (uid : Int) (tok : String)
    (tokenTable : List Auth.RefreshTokenRow) (users : List User) (u : User)
    (huid : uid ≠ 0) (htok : tok ≠ "")
    (hu : (users.filter (fun w => Auth.jsEqInt (.num uid) w.userID)).head? = some u) :
    (Auth.refresh (.num uid) (.str tok) tokenTable users =
        .ok (Auth.makeToken u.userID u.organizationID u.roleID)
          "Token refreshed successfully"
      ↔ Auth.storedTokenFor tokenTable (.num uid) = some tok) ∧
    (Auth.storedTokenFor tokenTable (.num uid) ≠ some tok →
      Auth.refresh (.num uid) (.str tok) tokenTable users =
        .err (.unauthorized "Refresh token is invalid")) := by
  have key : Auth.refresh (.num uid) (.str tok) tokenTable users =
      (if Auth.jsStrictEqStr (.str tok) (Auth.storedTokenFor tokenTable (.num uid))
       then .ok (Auth.makeToken u.userID u.organizationID u.roleID)
         "Token refreshed successfully"
       else .err (.unauthorized "Refresh token is invalid")) := by
    simp [Auth.refresh, JsVal.truthy, htok, huid, hu]
  rw [key]
  cases hst : Auth.storedTokenFor tokenTable (.num uid) with
  | none => simp [Auth.jsStrictEqStr]
  | some t =>
    by_cases htt : tok = t
    · subst htt; simp [Auth.jsStrictEqStr]
    · simp [Auth.jsStrictEqStr, htt, Ne.symm htt]

/-- Witness for C2 as amended: with a single stored token "A" for user 1,
refreshing with "A" succeeds and re-issues an access token. -/
theorem c2_refresh_first_stored_witness :
    ((1 : Int) ≠ 0 ∧ "A" ≠ "" ∧
      (List.filter (fun w => Auth.jsEqInt (.num 1) w.userID)
        [(⟨1, "a@b.com", "h", 7, 2⟩ : User)]).head? = some ⟨1, "a@b.com", "h", 7, 2⟩ ∧
      Auth.storedTokenFor [⟨1, "A"⟩] (.num 1) = some "A") ∧
    Auth.refresh (.num 1) (.str "A") [⟨1, "A"⟩] [⟨1, "a@b.com", "h", 7, 2⟩] =
      .ok (Auth.makeToken 1 7 2) "Token refreshed successfully" :=
  ⟨by decide,
    (c2_refresh_first_stored 1 "A" [⟨1, "A"⟩] [⟨1, "a@b.com", "h", 7, 2⟩]
      ⟨1, "a@b.com", "h", 7, 2⟩ (by decide) (by decide) (by decide)).1.mpr
      (by decide)⟩

/-- C1: with tenant scoping enabled (`hasOrganizationID = true`) and an
authenticated user, every gateway operation receives the user's
`organizationID` and adds the equality constraint before the caller
modifiers, so for any combination of modifier clauses no returned row of
`getAll`/`get`, no row selected for update, and no deleted row has an
`organizationID` different from the requester's. -/
theorem c1_tenant_scoping (table : List Row) (u : User)
    (modify : List (Row → Bool)) (keyValue : Int) (change : Row → Row) :
    Endpoint.orgArg true u = some u.organizationID ∧
    (∀ r ∈ Db.getAll table (some u.organizationID) modify,
      r.organizationID = u.organizationID) ∧
    (∀ r, Db.get table keyValue (some u.organizationID) modify = some r →
      r.organizationID = u.organizationID) ∧
    (∀ r ∈ (Db.update table keyValue change (some u.organizationID) modify).2,
      r.organizationID = u.organizationID) ∧
    (∀ r ∈ (Db.delete table keyValue (some u.organizationID) modify).2.2,
      r.organizationID = u.organizationID) := by
  refine ⟨rfl, ?_, ?_, ?_, ?_⟩
  · intro r hr
    rw [Db.getAll, List.mem_filter] at hr
    exact matchesAll_org hr.2
  · intro r hr
    rw [Db.get] at hr
    have hmem := List.mem_of_mem_head? (Option.mem_def.mpr hr)
    rw [List.mem_filter] at hmem
    exact matchesAll_org (Bool.and_elim_right hmem.2)
  · intro r hr
    rw [Db.update, List.mem_filter] at hr
    exact matchesAll_org (Bool.and_elim_right hr.2)
  · intro r hr
    rw [Db.delete, List.mem_filter] at hr
    exact matchesAll_org (Bool.and_elim_right hr.2)

/-- Witness for C1: with requester organization 5, the single row of
organization 5 is returned by `getAll` and indeed carries organization 5. -/
theorem c1_tenant_scoping_witness :
    ((⟨5, 1, 0⟩ : Row) ∈ Db.getAll [⟨5, 1, 0⟩] (some 5) []) ∧
    (⟨5, 1, 0⟩ : Row).organizationID = 5 :=
  ⟨by decide,
    (c1_tenant_scoping [⟨5, 1, 0⟩] ⟨1, "a@b.com", "h", 5, 2⟩ [] 1 id).2.1
      ⟨5, 1, 0⟩ (by decide)⟩

/-- A second filter by `p` of a list already filtered by the negation of `p`
keeps nothing. -/
lemma filter_filter_not {α : Type} (p : α → Bool) (l : List α) :
    (l.filter (fun a => !p a)).filter p = [] := by
  induction l with
  | nil => rfl
  | cons a t ih => cases h : p a <;> simp [List.filter_cons, h, ih]

/-- C5: a delete request answers `{message, id}` — the configured or default
"Deleted" text together with the addressed key value — exactly when the
gateway reports more than zero affected rows, and an empty 204 when zero
rows are affected; deleting again after a delete always affects zero rows,
so the repeat is an idempotent no-op distinguishable from a first-time
delete. -/
theorem c5_delete_response (table : List Row) (keyValue : Int) (u : User)
    (modify : List (Row → Bool)) (messages : Messages) :
    ((Db.delete table keyValue (Endpoint.orgArg true u) modify).1 > 0 →
      (Endpoint.deleteHandler table keyValue true u modify messages).1 =
        .body (chooseMessage .delete messages) keyValue) ∧
    chooseMessage .delete {} = "Deleted" ∧
    ((Db.delete table keyValue (Endpoint.orgArg true u) modify).1 = 0 →
      (Endpoint.deleteHandler table keyValue true u modify messages).1 =
        .noContent) ∧
    (Endpoint.deleteHandler
        (Endpoint.deleteHandler table keyValue true u modify messages).2
        keyValue true u modify messages).1 = .noContent := by
  refine ⟨?_, rfl, ?_, ?_⟩
  · intro h; simp [Endpoint.deleteHandler, h]
  · intro h; simp [Endpoint.deleteHandler, h]
  · simp [Endpoint.deleteHandler, Db.delete, filter_filter_not]

/-- Witness for C5: deleting the present row 1 in organization 5 affects one
row and answers the default "Deleted" message with the addressed id. -/
theorem c5_delete_response_witness :
    ((Db.delete [⟨5, 1, 0⟩] 1 (Endpoint.orgArg true ⟨1, "a@b.com", "h", 5, 2⟩) []).1 > 0) ∧
    (Endpoint.deleteHandler [⟨5, 1, 0⟩] 1 true ⟨1, "a@b.com", "h", 5, 2⟩ [] {}).1 =
      .body (chooseMessage .delete {}) 1 :=
  ⟨by decide,
    (c5_delete_response [⟨5, 1, 0⟩] 1 ⟨1, "a@b.com", "h", 5, 2⟩ [] {}).1 (by decide)⟩

/-- Writing a property that the object already has makes a subsequent read
of that property return the written value. -/
lemma getProp_setProp (body : List (String × JsVal)) (key : String) (v : JsVal)
    (h : body.any (fun p => p.1 == key) = true) :
    Auth.getProp (Auth.setProp body key v) key = v := by
  induction body with
  | nil => simp at h
  | cons a t ih =>
    by_cases hk : a.1 = key
    · simp [Auth.setProp, Auth.getProp, List.find?_cons, hk]
    · have hk2 : (a.1 == key) = false := by simpa using hk
      simp only [List.any_cons, hk2, Bool.false_or] at h
      simpa [Auth.setProp, Auth.getProp, List.find?_cons, hk, hk2] using ih h

/-- C6: a register request missing any of the five required keys fails with
BadRequest and nothing is handed to the store; with all keys present (and
the store insert succeeding) the persisted row is the body with its password
replaced by the bcrypt hash — reading back the persisted password yields the
hash — and the response is 201 Created with `{id, message}`. -/
theorem c6_register (body : Auth.Body) (hash : JsVal → String) (newID : Int)
    (create : Except DbErr Int) :
    (Auth.hasAllRequired body = false →
      Auth.register body hash create = ⟨.err (.badRequest ""), none⟩) ∧
    (Auth.hasAllRequired body = true → create = .ok newID →
      Auth.register body hash create =
        ⟨.created newID "User successfully registered",
          some (Auth.setProp body "password"
            (.str (hash (Auth.getProp body "password"))))⟩ ∧
      Auth.getProp (Auth.setProp body "password"
          (.str (hash (Auth.getProp body "password")))) "password" =
        .str (hash (Auth.getProp body "password"))) := by
  constructor
  · intro h; simp [Auth.register, h]
  · intro hall hc
    subst hc
    refine ⟨by simp [Auth.register, hall], ?_⟩
    apply getProp_setProp
    have h' := hall
    rw [Auth.hasAllRequired, Auth.requiredKeys] at h'
    simp only [List.all_cons, List.all_nil, Bool.and_eq_true, Bool.and_true] at h'
    exact h'.2.2.2.1

/-- Witness for C6: a complete registration body is persisted with the
hashed password and answered with 201 Created. -/
theorem c6_register_witness :
    (Auth.hasAllRequired [("firstName", .str "Ada"), ("lastName", .str "L"),
        ("email", .str "a@b.com"), ("password", .str "pw"),
        ("organizationID", .num 7)] = true ∧
      (Except.ok 3 : Except DbErr Int) = .ok 3) ∧
    Auth.register [("firstName", .str "Ada"), ("lastName", .str "L"),
        ("email", .str "a@b.com"), ("password", .str "pw"),
        ("organizationID", .num 7)] (fun _ => "HASH") (.ok 3) =
      ⟨.created 3 "User successfully registered",
        some (Auth.setProp [("firstName", .str "Ada"), ("lastName", .str "L"),
          ("email", .str "a@b.com"), ("password", .str "pw"),
          ("organizationID", .num 7)] "password" (.str "HASH"))⟩ :=
  ⟨⟨by decide, rfl⟩,
    ((c6_register [("firstName", .str "Ada"), ("lastName", .str "L"),
        ("email", .str "a@b.com"), ("password", .str "pw"),
        ("organizationID", .num 7)] (fun _ => "HASH") 3 (.ok 3)).2
      (by decide) rfl).1⟩

/-- Counterexample to C7 as stated: a `getAll` request whose `limit`
parameter is present (supplied by the query parser as the empty string) adds
no pagination links, although the claim requires links whenever either
parameter is present. -/
theorem c7_links_counterexample :
    (({ limit := some "", offset := none } : Endpoint.Params).limit ≠ none) ∧
    (Endpoint.getAllHandler [⟨5, 1, 0⟩] true ⟨1, "a@b.com", "h", 5, 2⟩ []
      { limit := some "", offset := none }).linksAdded = false := by
  decide

/-- C7 as amended: pagination links are added if and only if at least one of
the `limit` or `offset` parameters is present with a truthy (non-empty)
value; when neither is, the response is the bare `{results}` envelope — no
links and no pagination window applied, the results being exactly the
gateway's rows in order, annotated with their sort index. -/
theorem c7_links_iff_truthy_param (table : List Row) (hasOrg : Bool) (u : User)
    (modify : List (Row → Bool)) (params : Endpoint.Params) :
    ((Endpoint.getAllHandler table hasOrg u modify params).linksAdded =
      (Endpoint.paramTruthy params.limit || Endpoint.paramTruthy params.offset)) ∧
    (Endpoint.paramTruthy params.limit = false →
      Endpoint.paramTruthy params.offset = false →
      Endpoint.getAllHandler table hasOrg u modify params =
        { results := (Db.getAll table (Endpoint.orgArg hasOrg u) modify).enum.map
            (fun p => (p.2, p.1)),
          linksAdded := false }) := by
  constructor
  · rfl
  · intro h1 h2
    simp [Endpoint.getAllHandler, Endpoint.paginateWindow, h1, h2]

/-- Witness for C7 as amended: with neither parameter supplied, the response
is the bare results envelope without links. -/
theorem c7_links_iff_truthy_param_witness :
    (Endpoint.paramTruthy none = false) ∧
    Endpoint.getAllHandler [⟨5, 1, 0⟩] true ⟨1, "a@b.com", "h", 5, 2⟩ [] {} =
      { results := (Db.getAll [⟨5, 1, 0⟩]
          (Endpoint.orgArg true ⟨1, "a@b.com", "h", 5, 2⟩) []).enum.map
          (fun p => (p.2, p.1)),
        linksAdded := false } :=
  ⟨rfl,
    (c7_links_iff_truthy_param [⟨5, 1, 0⟩] true ⟨1, "a@b.com", "h", 5, 2⟩ [] {}).2
      rfl rfl⟩

end Stockpile
